import Mathlib

/-!
# Verification of the AI Automation Orchestrator task core

Shallow embedding of `src/automation_scripts/orchestrator.js`
(class `AIAutomationOrchestrator`): the task queue, the concurrency-bounded
dispatcher (`processQueue`), the retry policy, the scheduler
(`startScheduler`), the status aggregator (`getStatus`) and the report
compiler (`generateReport`).

Modelling choices, all taken from the source:

* JavaScript runs the orchestrator on a single-threaded event loop.  Every
  queue/running-set mutation happens in a synchronous stretch of code
  (`queueTask` up to and including the synchronous prefix of `processQueue`,
  the `taskCompleted`/`taskFailed` handlers, the `catch` block of
  `processQueue`, the timer callbacks).  We model each such synchronous
  stretch as one atomic transition of an explicit orchestrator state, and an
  execution as a fold of externally-chosen events (enqueue requests, child
  process resolutions, timer firings) over the initial state.
* JavaScript numbers appearing in the orchestrator are integers (priorities,
  retry counters, timestamps, exit codes); they are modelled as `Int`/`Nat`.
  The `x || d` defaulting idiom on numbers is modelled by `jsOrInt`
  (`undefined`/`0` are falsy and select the default).
* `Array.prototype.sort` is stable (ECMAScript 2019); it is modelled by
  `List.insertionSort`, which is a stable sort.
* `Map` iteration/insertion order and object-key insertion order are
  modelled with lists of pairs.
-/

namespace Orch

/-- `options` bag accepted by `queueTask(taskType, options)` /
`executeTask`.  Each field is `none` when absent (JavaScript `undefined`). -/
structure TaskOptions where
  priority : Option Int := none
  maxRetries : Option Int := none
  timeout : Option Int := none
deriving Repr, DecidableEq

/-- JavaScript `x || d` for a possibly-absent number `x`: `undefined` and
`0` are falsy and fall back to the default `d`. -/
def jsOrInt (v : Option Int) (d : Int) : Int :=
  match v with
  | none => d
  | some n => if n = 0 then d else n

/-- Task descriptor, as built by `queueTask` (orchestrator.js lines
436-444).  `id` abstracts the `'task_' + Date.now() + '_' + random` string;
the task also keeps its raw `options` bag because `executeTask` reads
`options.timeout` from it. -/
structure Task where
  id : Nat
  type : String
  options : TaskOptions
  priority : Int
  retryCount : Int
  maxRetries : Int
  createdAt : Nat
deriving Repr, DecidableEq

/-- The task object literal of `queueTask`:
`priority: options.priority || 5`, `retryCount: 0`,
`maxRetries: options.maxRetries || 3`, `createdAt: Date.now()`. -/
def mkTask (id createdAt : Nat) (taskType : String) (options : TaskOptions) : Task :=
  { id := id
  , type := taskType
  , options := options
  , priority := jsOrInt options.priority 5
  , retryCount := 0
  , maxRetries := jsOrInt options.maxRetries 3
  , createdAt := createdAt }

/-- The timeout `executeTask` arms around the child process:
`const timeout = options.timeout || 300000` (line 553). -/
def effectiveTimeout (t : Task) : Int := jsOrInt t.options.timeout 300000

/-- The comparator of `this.taskQueue.sort((a, b) => a.priority - b.priority)`
(line 447), as the ordering relation of a stable sort: lower number means
higher priority. -/
def prioLe (a b : Task) : Prop := a.priority ≤ b.priority

instance : DecidableRel prioLe := fun a b => Int.decLe a.priority b.priority

instance : IsTotal Task prioLe := ⟨fun a b => Int.le_total a.priority b.priority⟩

instance : IsTrans Task prioLe := ⟨fun _ _ _ => Int.le_trans⟩

/-- The `switch (type)` of `executeTask` (lines 490-518): each known type
maps to a command and argument list; any other type rejects with
`Unknown task type`, before any child process is spawned. -/
def executeTaskCmd (t : Task) : Except String (String × List String) :=
  if t.type = "health" then .ok ("node", ["automation.js", "health"])
  else if t.type = "security" then .ok ("node", ["advanced_ai_automation.js", "security"])
  else if t.type = "performance" then .ok ("node", ["advanced_ai_automation.js", "performance"])
  else if t.type = "content" then .ok ("node", ["advanced_ai_automation.js", "content"])
  else if t.type = "visual" then .ok ("node", ["advanced_ai_automation.js", "visual"])
  else if t.type = "all" then .ok ("node", ["advanced_ai_automation.js", "all"])
  else .error ("Unknown task type: " ++ t.type)

/-- Lifecycle events emitted by the orchestrator (`taskStarted`,
`taskCompleted`, `taskFailed`) plus the retry console log.  `failed` records
the task's `retryCount` at the moment of emission. -/
inductive OrchEvent where
  | started (id : Nat) (taskType : String)
  | completed (id : Nat) (taskType : String)
  | retrying (id : Nat) (retryCount : Int)
  | failed (id : Nat) (taskType : String) (retryCount : Int)
deriving Repr, DecidableEq

/-- Orchestrator state: `taskQueue` and `runningTasks` are the mutable
fields of the class (lines 21-23).  `dispatchLog` is ghost instrumentation:
each time `processQueue` moves a task into `runningTasks` it records the
task together with the queue left behind.  `events` collects the emitted
lifecycle events.  `persistedResults` records every Result record the
orchestrator itself writes to report storage on a terminal outcome (its
event handlers, lines 29-45, contain no such write, so no transition ever
appends to it). -/
structure OrchState where
  taskQueue : List Task
  runningTasks : List Task
  maxConcurrentTasks : Nat
  dispatchLog : List (Task × List Task)
  events : List OrchEvent
  persistedResults : List OrchEvent
deriving Repr, DecidableEq

/-- `this.maxConcurrentTasks = 3` (line 23). -/
def defaultMaxConcurrentTasks : Nat := 3

/-- Constructor state (lines 21-23) with a chosen concurrency bound. -/
def initState (maxConc : Nat) : OrchState :=
  { taskQueue := []
  , runningTasks := []
  , maxConcurrentTasks := maxConc
  , dispatchLog := []
  , events := []
  , persistedResults := [] }

/-- The synchronous prefix of `processQueue` (lines 455-463): if the running
set is at capacity or the queue is empty, do nothing; otherwise `shift()`
the head of the queue, `set` it into `runningTasks` and emit `taskStarted`.
The remainder of `processQueue` (awaiting `executeTask` and handling its
outcome) runs later and is modelled by `completeTask`/`failTask`. -/
def processQueue (s : OrchState) : OrchState :=
  match s.taskQueue with
  | [] => s
  | t :: rest =>
    if s.runningTasks.length ≥ s.maxConcurrentTasks then s
    else
      { s with taskQueue := rest
             , runningTasks := s.runningTasks ++ [t]
             , dispatchLog := s.dispatchLog ++ [(t, rest)]
             , events := s.events ++ [.started t.id t.type] }

/-- `queueTask` (lines 434-453): build the task, `push` it, stable-sort the
queue by priority, then call `processQueue()` (which runs synchronously up
to its first `await`). -/
def queueTask (s : OrchState) (taskType : String) (options : TaskOptions)
    (id createdAt : Nat) : OrchState :=
  let t := mkTask id createdAt taskType options
  processQueue { s with taskQueue := List.insertionSort prioLe (s.taskQueue ++ [t]) }

/-- Successful resolution of `executeTask` for running task `t`:
`emit('taskCompleted')`, whose handler (lines 34-38) deletes the task from
`runningTasks` and calls `processQueue()`. -/
def completeTask (s : OrchState) (t : Task) : OrchState :=
  processQueue
    { s with runningTasks := s.runningTasks.filter (fun u => u.id != t.id)
           , events := s.events ++ [.completed t.id t.type] }

/-- The `catch` block of `processQueue` (lines 468-478).  If
`retryCount < maxRetries`: increment `retryCount`, `unshift` the task back
to the front of the queue, delete it from `runningTasks`, and schedule a
deferred `processQueue()` (`setTimeout(..., 5000)`, modelled by a later
`timerFire` event).  Otherwise `emit('taskFailed')`, whose handler
(lines 40-44) deletes the task from `runningTasks` and calls
`processQueue()`. -/
def failTask (s : OrchState) (t : Task) : OrchState :=
  if t.retryCount < t.maxRetries then
    { s with taskQueue := { t with retryCount := t.retryCount + 1 } :: s.taskQueue
           , runningTasks := s.runningTasks.filter (fun u => u.id != t.id)
           , events := s.events ++ [.retrying t.id (t.retryCount + 1)] }
  else
    processQueue
      { s with runningTasks := s.runningTasks.filter (fun u => u.id != t.id)
             , events := s.events ++ [.failed t.id t.type t.retryCount] }

/-- External stimuli driving the orchestrator: an enqueue request (from the
scheduler, the WebSocket control interface or the CLI), the resolution of a
running task's child process as success or failure, and the firing of a
deferred retry `setTimeout(() => this.processQueue(), 5000)`. -/
inductive ExtEvent where
  | enqueue (taskType : String) (options : TaskOptions) (id createdAt : Nat)
  | resolveSuccess (id : Nat)
  | resolveFailure (id : Nat)
  | timerFire
deriving Repr, DecidableEq

/-- Look up a running task by id (`runningTasks` is keyed by task id). -/
def findRunning (s : OrchState) (id : Nat) : Option Task :=
  s.runningTasks.find? (fun t => t.id == id)

/-- One atomic event-loop transition.  A success resolution is only possible
for a task whose `executeTask` actually spawned a child process
(`executeTaskCmd` succeeded); an unknown-type task's promise rejects before
spawning, so it can only resolve as a failure.  Resolutions for ids that are
not running are ignored. -/
def applyEvent (s : OrchState) : ExtEvent → OrchState
  | .enqueue taskType options id createdAt => queueTask s taskType options id createdAt
  | .resolveSuccess id =>
    match findRunning s id with
    | some t =>
      match executeTaskCmd t with
      | .ok _ => completeTask s t
      | .error _ => s
    | none => s
  | .resolveFailure id =>
    match findRunning s id with
    | some t => failTask s t
    | none => s
  | .timerFire => processQueue s

/-- An execution of the orchestrator: fold a sequence of external events
over the initial state. -/
def runScenario (maxConc : Nat) (evts : List ExtEvent) : OrchState :=
  evts.foldl applyEvent (initState maxConc)

/-- Generic preservation of an invariant along an execution. -/
theorem foldl_applyEvent_inv (P : OrchState → Prop)
    (step : ∀ s e, P s → P (applyEvent s e)) :
    ∀ (evts : List ExtEvent) (s : OrchState), P s → P (evts.foldl applyEvent s) := by
  intro evts
  induction evts with
  | nil => intro s h; exact h
  | cons e rest ih => intro s h; exact ih (applyEvent s e) (step s e h)

/-! ## C1: the running set never exceeds `maxConcurrentTasks` -/

theorem processQueue_max (s : OrchState) : (processQueue s).maxConcurrentTasks = s.maxConcurrentTasks := by
  unfold processQueue
  cases s.taskQueue with
  | nil => rfl
  | cons t rest => dsimp only; split <;> rfl

theorem applyEvent_max (s : OrchState) (e : ExtEvent) :
    (applyEvent s e).maxConcurrentTasks = s.maxConcurrentTasks := by
  cases e with
  | enqueue ty o i c =>
    simp only [applyEvent, queueTask]
    rw [processQueue_max]
  | resolveSuccess id =>
    simp only [applyEvent]
    cases findRunning s id with
    | none => rfl
    | some t =>
      dsimp only
      cases executeTaskCmd t with
      | ok v => simp only [completeTask]; rw [processQueue_max]
      | error e => rfl
  | resolveFailure id =>
    simp only [applyEvent]
    cases findRunning s id with
    | none => rfl
    | some t =>
      dsimp only [failTask]
      split
      · rfl
      · rw [processQueue_max]
  | timerFire => exact processQueue_max s

/-- The concurrency-bound invariant: `processQueue` admits a task into the
running set only below capacity. -/
def ConcBound (s : OrchState) : Prop :=
  s.runningTasks.length ≤ s.maxConcurrentTasks

theorem processQueue_concBound {s : OrchState} (h : ConcBound s) :
    ConcBound (processQueue s) := by
  unfold ConcBound processQueue
  cases s.taskQueue with
  | nil => exact h
  | cons t rest =>
    dsimp only
    split
    · exact h
    · next hlt =>
      simp only [List.length_append, List.length_cons, List.length_nil]
      omega

theorem filter_concBound {s : OrchState} (h : ConcBound s) (p : Task → Bool) :
    (s.runningTasks.filter p).length ≤ s.maxConcurrentTasks :=
  le_trans (List.length_filter_le p s.runningTasks) h

theorem applyEvent_concBound (s : OrchState) (e : ExtEvent) (h : ConcBound s) :
    ConcBound (applyEvent s e) := by
  cases e with
  | enqueue ty o i c =>
    simp only [applyEvent, queueTask]
    exact processQueue_concBound h
  | resolveSuccess id =>
    simp only [applyEvent]
    cases findRunning s id with
    | none => exact h
    | some t =>
      dsimp only
      cases executeTaskCmd t with
      | ok v =>
        simp only [completeTask]
        exact processQueue_concBound (filter_concBound h _)
      | error e => exact h
  | resolveFailure id =>
    simp only [applyEvent]
    cases findRunning s id with
    | none => exact h
    | some t =>
      dsimp only [failTask]
      split
      · exact filter_concBound h _
      · exact processQueue_concBound (filter_concBound h _)
  | timerFire => exact processQueue_concBound h

/-- **C1.** At every point in execution the running set holds at most
`maxConcurrentTasks` tasks: for every concurrency bound and every sequence
of enqueue, dispatch, completion, failure and retry steps, `processQueue`
moves a task from the queue into `runningTasks` only when its size is
strictly below the bound, so the size never exceeds it.  In particular with
`maxConcurrentTasks = 2` and any number of queued tasks, at no point do more
than 2 tasks run simultaneously. -/
theorem running_tasks_bounded (maxConc : Nat) (evts : List ExtEvent) :
    (runScenario maxConc evts).runningTasks.length ≤ maxConc := by
  have h := foldl_applyEvent_inv
    (fun s => s.runningTasks.length ≤ s.maxConcurrentTasks ∧ s.maxConcurrentTasks = maxConc)
    (fun s e hs => by
      refine ⟨applyEvent_concBound s e hs.1, ?_⟩
      show (applyEvent s e).maxConcurrentTasks = maxConc
      rw [applyEvent_max]; exact hs.2)
    evts (initState maxConc) (by simp [initState])
  unfold runScenario
  exact le_trans h.1 (Nat.le_of_eq h.2)

/-! ## Shared infrastructure for the remaining queue claims -/

/-- Either `processQueue` is a no-op (empty queue or at capacity), or it
dispatches exactly the head of the queue. -/
theorem processQueue_eq (s : OrchState) :
    processQueue s = s ∨
    ∃ t rest, s.taskQueue = t :: rest ∧ s.runningTasks.length < s.maxConcurrentTasks ∧
      processQueue s = { s with taskQueue := rest
                              , runningTasks := s.runningTasks ++ [t]
                              , dispatchLog := s.dispatchLog ++ [(t, rest)]
                              , events := s.events ++ [.started t.id t.type] } := by
  unfold processQueue
  cases hq : s.taskQueue with
  | nil => left; rfl
  | cons t rest =>
    by_cases hc : s.runningTasks.length ≥ s.maxConcurrentTasks
    · left; simp [hc]
    · right; exact ⟨t, rest, rfl, by omega, by simp [hc]⟩

/-- All tasks currently owned by the orchestrator (queued or running). -/
def stateTasks (s : OrchState) : List Task := s.taskQueue ++ s.runningTasks

theorem mem_stateTasks_processQueue {s : OrchState} {u : Task}
    (h : u ∈ stateTasks (processQueue s)) : u ∈ stateTasks s := by
  rcases processQueue_eq s with heq | ⟨t, rest, hq, _, heq⟩
  · rwa [heq] at h
  · rw [heq] at h
    unfold stateTasks at h ⊢
    rw [hq]
    simp only [List.mem_append, List.mem_cons, List.mem_singleton] at h ⊢
    tauto

/-- Recognizer for terminal `taskFailed` emissions. -/
def isFailedEvt : OrchEvent → Bool
  | .failed _ _ _ => true
  | _ => false

/-- Recognizer for failure resolutions of running tasks. -/
def isFailureEvt : ExtEvent → Bool
  | .resolveFailure _ => true
  | _ => false

/-- A configured `maxRetries` override, when supplied, is a nonnegative
retry count (the spec calls it an "integer ceiling", default 3). -/
def goodOpts (o : TaskOptions) : Bool :=
  match o.maxRetries with
  | none => true
  | some k => decide (0 ≤ k)

def goodEvt : ExtEvent → Bool
  | .enqueue _ o _ _ => goodOpts o
  | _ => true

/-- Preservation of an invariant along an execution whose events all satisfy
a side condition. -/
theorem foldl_applyEvent_inv_of (Q : ExtEvent → Bool) (P : OrchState → Prop)
    (step : ∀ s e, Q e = true → P s → P (applyEvent s e)) :
    ∀ (evts : List ExtEvent) (s : OrchState),
      (∀ e ∈ evts, Q e = true) → P s → P (evts.foldl applyEvent s) := by
  intro evts
  induction evts with
  | nil => intro s _ h; exact h
  | cons e rest ih =>
    intro s hq h
    exact ih (applyEvent s e) (fun e' he' => hq e' (List.mem_cons_of_mem e he'))
      (step s e (hq e (List.mem_cons_self e rest)) h)

/-! ## Concrete scenarios (each entry also states the event-loop schedule:
child-process resolutions and retry-timer firings in program order) -/

/-- Concurrency 1, idle start: enqueue fresh tasks with priorities 5, 1, 3
(types all known), then let each running task complete. -/
def cex2Events : List ExtEvent :=
  [ .enqueue "health" { priority := some 5 } 1 10
  , .enqueue "health" { priority := some 1 } 2 11
  , .enqueue "health" { priority := some 3 } 3 12
  , .resolveSuccess 1, .resolveSuccess 2, .resolveSuccess 3 ]

/-- Concurrency 1, with task 0 already occupying the slot while priorities
5, 1, 3 are enqueued. -/
def amend2Events : List ExtEvent :=
  [ .enqueue "health" {} 0 5
  , .enqueue "health" { priority := some 5 } 1 10
  , .enqueue "health" { priority := some 1 } 2 11
  , .enqueue "health" { priority := some 3 } 3 12
  , .resolveSuccess 0, .resolveSuccess 2, .resolveSuccess 3, .resolveSuccess 1 ]

/-- Concurrency 1, slot occupied; two equal-priority tasks enqueued in
order 10 then 11. -/
def tieEvents : List ExtEvent :=
  [ .enqueue "health" {} 0 5
  , .enqueue "security" { priority := some 2 } 10 6
  , .enqueue "performance" { priority := some 2 } 11 7
  , .resolveSuccess 0, .resolveSuccess 10, .resolveSuccess 11 ]

/-- `maxRetries = 2`, every attempt fails (failure resolution after each
dispatch, retry timer firing in between). -/
def c3Events : List ExtEvent :=
  [ .enqueue "health" { maxRetries := some 2 } 1 10, .resolveFailure 1, .timerFire
  , .resolveFailure 1, .timerFire, .resolveFailure 1 ]

/-- An unknown task type enqueued with default options; its first execution
fails (the promise rejects with `Unknown task type`), then the retry timer
fires. -/
def cex4Events : List ExtEvent :=
  [ .enqueue "bogus" {} 1 10, .resolveFailure 1, .timerFire ]

/-- The unknown-type task driven to exhaustion of its default 3 retries. -/
def amend4Events : List ExtEvent :=
  [ .enqueue "bogus" {} 1 10, .resolveFailure 1, .timerFire, .resolveFailure 1
  , .timerFire, .resolveFailure 1, .timerFire, .resolveFailure 1 ]

/-- A running priority-5 task fails with a priority-1 task waiting in the
queue; the retry timer then fires. -/
def cex5Events : List ExtEvent :=
  [ .enqueue "health" { priority := some 5 } 1 10
  , .enqueue "health" { priority := some 1 } 2 11
  , .resolveFailure 1, .timerFire ]

/-- A `maxRetries = 1` task whose both attempts fail, yielding a terminal
`taskFailed`. -/
def cex6Events : List ExtEvent :=
  [ .enqueue "health" { maxRetries := some 1 } 1 10, .resolveFailure 1
  , .timerFire, .resolveFailure 1 ]

/-! ## C2: dispatch order of fresh tasks under concurrency 1 -/

/-- **C2, counterexample.** Enqueueing priorities [5, 1, 3] into an idle
orchestrator with concurrency 1 dispatches in order [5, 1, 3], not
[1, 3, 5] as claimed: `queueTask` calls `processQueue()` synchronously, so
the first task is dispatched the moment it is enqueued, while the slot is
still free. -/
theorem priority_order_counterexample :
    (runScenario 1 cex2Events).dispatchLog.map (fun p => p.1.priority) = [5, 1, 3]
  ∧ (runScenario 1 cex2Events).dispatchLog.map (fun p => p.1.priority) ≠ [1, 3, 5] := by
  constructor
  · rfl
  · decide

/-- **C2, amended.** With concurrency 1 and only fresh tasks, tasks that
are enqueued while the single execution slot is occupied dispatch in
ascending priority order with FIFO tie-break: with task 0 running,
enqueueing priorities [5, 1, 3] (ids 1, 2, 3) yields dispatch order
id 0, then priority 1, priority 3, priority 5; and two equal-priority tasks
(ids 10, 11) dispatch in enqueue order.  (A task enqueued while a slot is
free is dispatched immediately instead.) -/
theorem priority_order_amended :
    (runScenario 1 amend2Events).dispatchLog.map (fun p => (p.1.id, p.1.priority))
        = [(0, 5), (2, 1), (3, 3), (1, 5)]
  ∧ (runScenario 1 tieEvents).dispatchLog.map (fun p => p.1.id) = [0, 10, 11] :=
  ⟨rfl, rfl⟩

/-! ## C6: persistence of terminal outcomes -/

/-- **C6, counterexample.** A terminal `taskFailed` outcome with no
persisted Result record: after a `maxRetries = 1` task fails twice, the
orchestrator has emitted exactly one terminal `taskFailed` event yet its
report storage received no Result record — the `taskFailed` handler
(lines 40-44) only logs to the console, deletes the task from
`runningTasks` and re-runs `processQueue`. -/
theorem terminal_persistence_counterexample :
    (runScenario 1 cex6Events).events.filter isFailedEvt = [.failed 1 "health" 1]
  ∧ (runScenario 1 cex6Events).persistedResults = [] := by
  exact ⟨rfl, rfl⟩

theorem applyEvent_persisted (s : OrchState) (e : ExtEvent) :
    (applyEvent s e).persistedResults = s.persistedResults := by
  have hpq : ∀ s' : OrchState, (processQueue s').persistedResults = s'.persistedResults := by
    intro s'
    rcases processQueue_eq s' with heq | ⟨t, rest, _, _, heq⟩ <;> rw [heq]
  cases e with
  | enqueue ty o i c => simp only [applyEvent, queueTask]; rw [hpq]
  | resolveSuccess id =>
    simp only [applyEvent]
    cases findRunning s id with
    | none => rfl
    | some t =>
      dsimp only
      cases executeTaskCmd t with
      | ok v => simp only [completeTask]; rw [hpq]
      | error e => rfl
  | resolveFailure id =>
    simp only [applyEvent]
    cases findRunning s id with
    | none => rfl
    | some t =>
      dsimp only [failTask]
      split
      · rfl
      · rw [hpq]
  | timerFire => exact hpq s

/-- **C6, amended.** The orchestrator itself never persists any Result
record: along every execution, `persistedResults` stays empty.  Terminal
outcomes (success or exhausted-retry failure) only emit
`taskCompleted`/`taskFailed` events and console logs; report files are
written solely by the spawned probe scripts as a side channel, so a
terminal `taskFailed` leaves no persisted Result record of the failure. -/
theorem terminal_persistence_amended (maxConc : Nat) (evts : List ExtEvent) :
    (runScenario maxConc evts).persistedResults = [] :=
  foldl_applyEvent_inv (fun s => s.persistedResults = [])
    (fun s e hs => by
      show (applyEvent s e).persistedResults = []
      rw [applyEvent_persisted]; exact hs)
    evts (initState maxConc) rfl

/-! ## C3: retry exhaustion and the `retryCount <= maxRetries` invariant -/

theorem goodOpts_spec {o : TaskOptions} (hg : goodOpts o = true) :
    ∀ k, o.maxRetries = some k → 0 ≤ k := by
  intro k hk
  unfold goodOpts at hg
  rw [hk] at hg
  simpa using hg

theorem mkTask_retryCount_le (id c : Nat) (ty : String) {o : TaskOptions}
    (hg : goodOpts o = true) :
    (mkTask id c ty o).retryCount ≤ (mkTask id c ty o).maxRetries := by
  show (0 : Int) ≤ jsOrInt o.maxRetries 3
  unfold jsOrInt
  cases ho : o.maxRetries with
  | none => decide
  | some k =>
    dsimp only
    split
    · decide
    · exact goodOpts_spec hg k ho

/-- The retry-ceiling invariant: every task owned by the orchestrator has
`retryCount <= maxRetries`. -/
def RetryInv (s : OrchState) : Prop :=
  ∀ t ∈ stateTasks s, t.retryCount ≤ t.maxRetries

theorem applyEvent_retryInv (s : OrchState) (e : ExtEvent) (hg : goodEvt e = true)
    (h : RetryInv s) : RetryInv (applyEvent s e) := by
  have hfilter : ∀ (p : Task → Bool) u, u ∈ s.runningTasks.filter p → u ∈ s.runningTasks :=
    fun p u hu => (List.mem_filter.1 hu).1
  cases e with
  | enqueue ty o i c =>
    intro u hu
    simp only [applyEvent, queueTask] at hu
    have hu' := mem_stateTasks_processQueue hu
    unfold stateTasks at hu'
    simp only [List.mem_append] at hu'
    rcases hu' with hmem | hrun
    · have hperm := (List.perm_insertionSort prioLe (s.taskQueue ++ [mkTask i c ty o])).subset hmem
      rcases List.mem_append.1 hperm with h1 | h2
      · exact h u (List.mem_append_left _ h1)
      · have heq : u = mkTask i c ty o := List.mem_singleton.1 h2
        subst heq
        exact mkTask_retryCount_le i c ty hg
    · exact h u (List.mem_append_right _ hrun)
  | resolveSuccess id =>
    intro u hu
    simp only [applyEvent] at hu
    cases hfind : findRunning s id with
    | none => rw [hfind] at hu; exact h u hu
    | some t =>
      rw [hfind] at hu
      dsimp only at hu
      cases hcmd : executeTaskCmd t with
      | error e => rw [hcmd] at hu; exact h u hu
      | ok v =>
        rw [hcmd] at hu
        simp only [completeTask] at hu
        have hu' := mem_stateTasks_processQueue hu
        unfold stateTasks at hu'
        simp only [List.mem_append] at hu'
        rcases hu' with hmem | hrun
        · exact h u (List.mem_append_left _ hmem)
        · exact h u (List.mem_append_right _ (hfilter _ u hrun))
  | resolveFailure id =>
    intro u hu
    simp only [applyEvent] at hu
    cases hfind : findRunning s id with
    | none => rw [hfind] at hu; exact h u hu
    | some t =>
      rw [hfind] at hu
      have ht : t ∈ s.runningTasks := List.mem_of_find?_eq_some hfind
      have htle : t.retryCount ≤ t.maxRetries := h t (List.mem_append_right _ ht)
      dsimp only [failTask] at hu
      by_cases hretry : t.retryCount < t.maxRetries
      · rw [if_pos hretry] at hu
        unfold stateTasks at hu
        simp only [List.mem_append, List.mem_cons] at hu
        rcases hu with (heq | hqmem) | hrun
        · subst heq; dsimp only; omega
        · exact h u (List.mem_append_left _ hqmem)
        · exact h u (List.mem_append_right _ (hfilter _ u hrun))
      · rw [if_neg hretry] at hu
        have hu' := mem_stateTasks_processQueue hu
        unfold stateTasks at hu'
        simp only [List.mem_append] at hu'
        rcases hu' with hmem | hrun
        · exact h u (List.mem_append_left _ hmem)
        · exact h u (List.mem_append_right _ (hfilter _ u hrun))
  | timerFire =>
    intro u hu
    exact h u (mem_stateTasks_processQueue hu)

/-- **C3.** Retry exhaustion.  (a) A task with `maxRetries = 2` whose every
attempt fails is executed exactly 3 times (`retryCount` 0, 1, 2 at the three
dispatches) and yields exactly one terminal `taskFailed` with
`retryCount = 2`, after which the orchestrator owns no copy of it.
(b) Whenever every supplied `maxRetries` override is a nonnegative count,
`retryCount <= maxRetries` holds for every task in every reachable state.
(c) A terminal failure (`retryCount` not below `maxRetries`) never
re-enqueues the task: every task owned afterwards is either one of the
previously queued tasks or a previously running task with a different id. -/
theorem retry_exhaustion :
    ((runScenario 1 c3Events).dispatchLog.map (fun p => p.1.retryCount) = [0, 1, 2]
      ∧ (runScenario 1 c3Events).events.filter isFailedEvt = [.failed 1 "health" 2]
      ∧ stateTasks (runScenario 1 c3Events) = [])
  ∧ (∀ (maxConc : Nat) (evts : List ExtEvent), (∀ e ∈ evts, goodEvt e = true) →
      RetryInv (runScenario maxConc evts))
  ∧ (∀ (s : OrchState) (t : Task), ¬ t.retryCount < t.maxRetries →
      ∀ u ∈ stateTasks (failTask s t),
        u ∈ s.taskQueue ∨ (u ∈ s.runningTasks ∧ u.id ≠ t.id)) := by
  refine ⟨⟨rfl, rfl, rfl⟩, ?_, ?_⟩
  · intro maxConc evts hg
    exact foldl_applyEvent_inv_of goodEvt RetryInv applyEvent_retryInv evts
      (initState maxConc) hg (by intro t ht; simp [stateTasks, initState] at ht)
  · intro s t hterm u hu
    dsimp only [failTask] at hu
    rw [if_neg hterm] at hu
    have hu' := mem_stateTasks_processQueue hu
    unfold stateTasks at hu'
    simp only [List.mem_append] at hu'
    rcases hu' with hmem | hrun
    · exact Or.inl hmem
    · rcases List.mem_filter.1 hrun with ⟨hmem, hid⟩
      exact Or.inr ⟨hmem, by simpa using hid⟩

/-- Witness for C3: the hypotheses are satisfiable — the `maxRetries = 2`
scenario uses only well-formed options, and the invariant instantiates on
it. -/
theorem retry_exhaustion_witness :
    (∀ e ∈ c3Events, goodEvt e = true) ∧ RetryInv (runScenario 1 c3Events) :=
  ⟨by decide, retry_exhaustion.2.1 1 c3Events (by decide)⟩

/-! ## C4: unknown task types -/

/-- **C4, counterexample.** An unknown-type task does **not** fail
terminally on its first dispatch: `executeTask` rejects with
`Unknown task type`, but the `catch` block of `processQueue` treats that
rejection like any transient failure — with the default `maxRetries = 3`
the task is re-enqueued and dispatched a second time with
`retryCount = 1 > 0`, and no terminal `taskFailed` has been emitted yet. -/
theorem unknown_type_counterexample :
    (runScenario 1 cex4Events).dispatchLog.map (fun p => (p.1.type, p.1.retryCount))
        = [("bogus", 0), ("bogus", 1)]
  ∧ (runScenario 1 cex4Events).events.filter isFailedEvt = [] :=
  ⟨rfl, rfl⟩

/-- **C4, amended.** An enqueued task of unknown type fails on **every**
dispatch with an unknown-task-type error (`executeTask` rejects before
spawning, so it can never resolve successfully), but it is retried like any
transient failure: with the default `maxRetries = 3` it is dispatched 4
times (`retryCount` 0, 1, 2, 3) before the single terminal `taskFailed`
with `retryCount = 3`. -/
theorem unknown_type_amended :
    executeTaskCmd (mkTask 1 10 "bogus" {}) = .error "Unknown task type: bogus"
  ∧ runScenario 1 [.enqueue "bogus" {} 1 10, .resolveSuccess 1]
      = runScenario 1 [.enqueue "bogus" {} 1 10]
  ∧ (runScenario 1 amend4Events).dispatchLog.map (fun p => (p.1.type, p.1.retryCount))
      = [("bogus", 0), ("bogus", 1), ("bogus", 2), ("bogus", 3)]
  ∧ (runScenario 1 amend4Events).events.filter isFailedEvt = [.failed 1 "bogus" 3] :=
  ⟨rfl, rfl, rfl, rfl⟩

/-! ## C5: strict priority minimality at dispatch -/

/-- **C5, counterexample.** After a failed task is re-inserted at the front
of the queue, dispatch is **not** priority-minimal: a running priority-5
task fails and is unshifted ahead of a waiting priority-1 task, and the
next dispatch (the retry timer's `processQueue`) takes the priority-5 task
while the priority-1 task is still queued. -/
theorem strict_priority_counterexample :
    (runScenario 1 cex5Events).dispatchLog.map
        (fun p => (p.1.priority, p.2.map (fun u => u.priority))) = [(5, []), (5, [1])]
  ∧ ¬ ((5 : Int) ≤ 1) := by
  exact ⟨rfl, by decide⟩

/-- Invariant for executions without failures: the queue is sorted by
priority and every recorded dispatch was priority-minimal. -/
def SortedMinimal (s : OrchState) : Prop :=
  List.Sorted prioLe s.taskQueue ∧
  ∀ p ∈ s.dispatchLog, ∀ u ∈ p.2, p.1.priority ≤ u.priority

theorem processQueue_sortedMinimal {s : OrchState} (h : SortedMinimal s) :
    SortedMinimal (processQueue s) := by
  rcases processQueue_eq s with heq | ⟨t, rest, hq, _, heq⟩
  · rwa [heq]
  · rw [heq]
    obtain ⟨hs, hd⟩ := h
    rw [hq] at hs
    rcases List.sorted_cons.1 hs with ⟨hhead, htail⟩
    refine ⟨htail, ?_⟩
    intro p hp u hu
    dsimp only at hp
    rcases List.mem_append.1 hp with hp | hp
    · exact hd p hp u hu
    · have heq : p = (t, rest) := List.mem_singleton.1 hp
      subst heq
      exact hhead u hu

theorem applyEvent_sortedMinimal (s : OrchState) (e : ExtEvent)
    (hnf : (!isFailureEvt e) = true) (h : SortedMinimal s) :
    SortedMinimal (applyEvent s e) := by
  cases e with
  | enqueue ty o i c =>
    simp only [applyEvent, queueTask]
    apply processQueue_sortedMinimal
    exact ⟨List.sorted_insertionSort prioLe _, h.2⟩
  | resolveSuccess id =>
    simp only [applyEvent]
    cases findRunning s id with
    | none => exact h
    | some t =>
      dsimp only
      cases executeTaskCmd t with
      | error e => exact h
      | ok v =>
        simp only [completeTask]
        exact processQueue_sortedMinimal ⟨h.1, h.2⟩
  | resolveFailure id => simp [isFailureEvt] at hnf
  | timerFire => exact processQueue_sortedMinimal h

/-- **C5, amended.** Priority minimality at dispatch holds in every
execution without failure re-insertions: `queueTask` keeps the queue sorted
by priority, and `processQueue` always dispatches the head, so each
dispatched task's priority is minimal among the tasks then in the queue.
The retry path breaks this: a failed task is `unshift`ed to the **front**
of the queue regardless of priority, so after a retry re-insertion the next
dispatch can take a strictly higher-priority-value task than one still
queued. -/
theorem strict_priority_amended (maxConc : Nat) (evts : List ExtEvent)
    (hnf : ∀ e ∈ evts, isFailureEvt e = false) :
    ∀ p ∈ (runScenario maxConc evts).dispatchLog, ∀ u ∈ p.2,
      p.1.priority ≤ u.priority := by
  have h := foldl_applyEvent_inv_of (fun e => !isFailureEvt e) SortedMinimal
    (fun s e he hs => applyEvent_sortedMinimal s e he hs) evts (initState maxConc)
    (fun e he => by
      show (!isFailureEvt e) = true
      rw [hnf e he]; rfl)
    (by constructor
        · simp [initState, List.Sorted]
        · intro p hp u hu; simp [initState] at hp)
  exact h.2

/-- Witness for C5 (amended): a failure-free scenario with interleaved
priorities in which every recorded dispatch was priority-minimal. -/
theorem strict_priority_amended_witness :
    (∀ e ∈ amend2Events, isFailureEvt e = false) ∧
    (∀ p ∈ (runScenario 1 amend2Events).dispatchLog, ∀ u ∈ p.2,
      p.1.priority ≤ u.priority) :=
  ⟨by decide, strict_priority_amended 1 amend2Events (by decide)⟩

/-! ## C10: zero-valued option overrides fall back to the defaults -/

/-- **C10.** A zero-valued option override is replaced by the built-in
default, because `||` treats `0` as falsy: `options.priority = 0` yields
priority 5 (not highest-priority 0), `options.maxRetries = 0` yields
`maxRetries = 3`, and `options.timeout = 0` runs with the default
300000 ms timeout instead of an immediate deadline. -/
theorem zero_option_overrides (id createdAt : Nat) (ty : String) (o : TaskOptions) :
    (o.priority = some 0 → (mkTask id createdAt ty o).priority = 5)
  ∧ (o.maxRetries = some 0 → (mkTask id createdAt ty o).maxRetries = 3)
  ∧ (o.timeout = some 0 → effectiveTimeout (mkTask id createdAt ty o) = 300000) := by
  refine ⟨?_, ?_, ?_⟩ <;> intro h <;> simp [mkTask, effectiveTimeout, jsOrInt, h]

/-- Witness for C10 at the all-zero options bag. -/
theorem zero_option_overrides_witness :
    (mkTask 1 10 "health" ⟨some 0, some 0, some 0⟩).priority = 5
  ∧ (mkTask 1 10 "health" ⟨some 0, some 0, some 0⟩).maxRetries = 3
  ∧ effectiveTimeout (mkTask 1 10 "health" ⟨some 0, some 0, some 0⟩) = 300000 :=
  ⟨(zero_option_overrides 1 10 "health" ⟨some 0, some 0, some 0⟩).1 rfl,
   (zero_option_overrides 1 10 "health" ⟨some 0, some 0, some 0⟩).2.1 rfl,
   (zero_option_overrides 1 10 "health" ⟨some 0, some 0, some 0⟩).2.2 rfl⟩

/-! ## A small model of the JSON values handled by `getStatus` and
`generateReport` -/

/-- JSON-ish JavaScript values: `undefined`, `null`, `NaN` and `-Infinity`
(the latter two produced by arithmetic, e.g. `Math.max()` of nothing),
booleans, integer numbers, strings, arrays and objects (fields in insertion
order). -/
inductive JsValue where
  | undefined
  | null
  | nan
  | neginf
  | bool (b : Bool)
  | num (n : Int)
  | str (s : String)
  | arr (elems : List JsValue)
  | obj (fields : List (String × JsValue))
deriving Repr

mutual

/-- JavaScript string coercion (`String(v)`, also used by `+` with a string
operand): arrays join their elements with commas, plain objects display as
`[object Object]`. -/
def jsToDisplayString : JsValue → String
  | .undefined => "undefined"
  | .null => "null"
  | .nan => "NaN"
  | .neginf => "-Infinity"
  | .bool true => "true"
  | .bool false => "false"
  | .num n => toString n
  | .str s => s
  | .arr xs => String.intercalate "," (jsToDisplayStringList xs)
  | .obj _ => "[object Object]"

def jsToDisplayStringList : List JsValue → List String
  | [] => []
  | v :: vs => jsToDisplayString v :: jsToDisplayStringList vs

end

/-- JavaScript truthiness: `undefined`, `null`, `NaN`, `0`, `""` and
`false` are falsy; everything else (including empty arrays/objects and
`-Infinity`) is truthy. -/
def truthy : JsValue → Bool
  | .undefined => false
  | .null => false
  | .nan => false
  | .neginf => true
  | .bool b => b
  | .num n => n != 0
  | .str s => s != ""
  | .arr _ => true
  | .obj _ => true

/-- JavaScript `a || b`. -/
def jsOr (a b : JsValue) : JsValue := if truthy a then a else b

/-- JavaScript property access `v.k` for the shapes reaching it here:
object field lookup (`undefined` when absent), `length` of arrays and
strings, `undefined` on all other receivers. -/
def jsGet : JsValue → String → JsValue
  | .obj fields, k =>
    match fields.lookup k with
    | some v => v
    | none => .undefined
  | .arr xs, k => if k = "length" then .num xs.length else .undefined
  | .str s, k => if k = "length" then .num s.length else .undefined
  | _, _ => .undefined

/-- Optional chaining `v?.k`: `undefined` on a nullish receiver, plain
access otherwise. -/
def jsOptGet (v : JsValue) (k : String) : JsValue :=
  match v with
  | .undefined => .undefined
  | .null => .undefined
  | _ => jsGet v k

/-- JavaScript index access `v[0]`: first array element, object property
`"0"`, first character of a string, `undefined` otherwise. -/
def jsIdx0 : JsValue → JsValue
  | .arr [] => .undefined
  | .arr (x :: _) => x
  | .obj fields =>
    (match fields.lookup "0" with
     | some v => v
     | none => .undefined)
  | .str s =>
    (match s.toList with
     | [] => .undefined
     | c :: _ => .str (String.mk [c]))
  | _ => .undefined

/-- Operands whose `ToPrimitive` is a string (so `+` concatenates). -/
def isStringCoercing : JsValue → Bool
  | .str _ => true
  | .arr _ => true
  | .obj _ => true
  | _ => false

/-- `ToNumber` on primitives (numeric strings are not parsed; no string
operand ever reaches the numeric branch of `jsAdd` in this code). -/
def jsToNum : JsValue → JsValue
  | .num n => .num n
  | .null => .num 0
  | .bool true => .num 1
  | .bool false => .num 0
  | .nan => .nan
  | .neginf => .neginf
  | .undefined => .nan
  | _ => .nan

/-- JavaScript `+` for the operand shapes of `getStatus`: if either operand
coerces to a string the result is display-string concatenation (in
particular `undefined + 'ms'` is `"undefinedms"`); otherwise numeric
addition, with `NaN` absorbing. -/
def jsAdd (a b : JsValue) : JsValue :=
  if isStringCoercing a || isStringCoercing b then
    .str (jsToDisplayString a ++ jsToDisplayString b)
  else
    match jsToNum a, jsToNum b with
    | .num x, .num y => .num (x + y)
    | _, _ => .nan

/-- `report.split('_')[0]`: the characters of the file name before the
first underscore (the whole name when it has none). -/
def typePrefix (name : String) : String :=
  String.mk (name.toList.takeWhile (fun c => c ≠ '_'))

/-- JavaScript `a < b` on strings: lexicographic comparison of code units
(our file names are ASCII, where this agrees with code points). -/
def strLtChars : List Char → List Char → Bool
  | [], [] => false
  | [], _ :: _ => true
  | _ :: _, [] => false
  | a :: as, b :: bs =>
    if a < b then true
    else if b < a then false
    else strLtChars as bs

def jsStrLt (a b : String) : Bool := strLtChars a.toList b.toList

/-! ## `getStatus` (orchestrator.js lines 623-662) -/

/-- The first loop of `getStatus`: for each directory entry, keep per type
prefix the greatest file name under JavaScript string comparison
(`!latestReports[type] || report > latestReports[type]`); object keys keep
insertion order, value updates keep key position. -/
def latestReports (names : List String) : List (String × String) :=
  names.foldl (fun acc report =>
    let t := typePrefix report
    match acc.lookup t with
    | none => acc ++ [(t, report)]
    | some cur =>
      if cur = "" ∨ jsStrLt cur report then
        acc.map (fun p => if p.1 = t then (t, report) else p)
      else acc) []

/-- The second loop of `getStatus`: read and parse each chosen file (a
missing/unparsable file is skipped by the `try`/`catch`) and project the
recognized scalar fields of the `performance`, `security` and `content`
payloads, with `|| '--'` / `|| 0` fallbacks, exactly as written:
`status['perf-load'] = reportData[0]?.loadTime + 'ms' || '--'` concatenates
before falling back.  The directory is a list of (file name, parsed JSON)
pairs in directory order. -/
def getStatus (dir : List (String × JsValue)) : List (String × JsValue) :=
  (latestReports (dir.map (fun p => p.1))).foldl (fun status entry =>
    match dir.lookup entry.2 with
    | none => status
    | some reportData =>
      let d0 := jsIdx0 reportData
      if entry.1 = "performance" then
        status ++
          [ ("perf-score", jsOr (jsOptGet (jsOptGet d0 "performanceScore") "score") (.str "--"))
          , ("perf-load", jsOr (jsAdd (jsOptGet d0 "loadTime") (.str "ms")) (.str "--")) ]
      else if entry.1 = "security" then
        status ++
          [ ("security-score", jsOr (jsOptGet (jsOptGet d0 "securityScore") "score") (.str "--"))
          , ("security-vulns", jsOr (jsOptGet (jsOptGet d0 "jsSecurityIssues") "length") (.num 0)) ]
      else if entry.1 = "content" then
        status ++
          [ ("ai-content", jsOr (jsOptGet (jsOptGet d0 "aiScore") "score") (.str "--"))
          , ("ai-seo",
              if truthy (jsOptGet (jsOptGet (jsOptGet d0 "pageData") "seo") "title")
              then JsValue.str "Good" else JsValue.str "Poor") ]
      else status) []

/-- A `performance` report payload (an array whose first element carries
the score and load time), as produced by the probe scripts. -/
def perfPayload (score loadTime : Int) : JsValue :=
  .arr [.obj [("performanceScore", .obj [("score", .num score)]), ("loadTime", .num loadTime)]]

/-- Three performance Results with ascending 13-digit epoch timestamps t1 <
t2 < t3 in their file names and scores [50, 70, 60]. -/
def dirA : List (String × JsValue) :=
  [ ("performance_1700000000001.json", perfPayload 50 111)
  , ("performance_1700000000002.json", perfPayload 70 222)
  , ("performance_1700000000003.json", perfPayload 60 333) ]

/-- One latest Result per type whose payload carries none of the
recognized scalar fields. -/
def dirB : List (String × JsValue) :=
  [ ("performance_1700000000005.json", .arr [.obj []])
  , ("security_1700000000006.json", .arr [.obj []])
  , ("content_1700000000007.json", .arr [.obj []]) ]

/-! ## C7: status derivation and placeholders -/

/-- **C7, counterexample.** A recognized scalar field absent from the
latest payload does **not** always surface as the documented `'--'`
placeholder: with `loadTime` missing, `perf-load` is the string
`"undefinedms"` — `reportData[0]?.loadTime + 'ms'` concatenates
`undefined` with `'ms'` before the `|| '--'` fallback, and the non-empty
result is truthy, so the placeholder is bypassed (while the missing score
does fall back to `'--'`). -/
theorem status_placeholder_counterexample :
    (getStatus dirB).lookup "perf-load" = some (.str "undefinedms")
  ∧ (getStatus dirB).lookup "perf-score" = some (.str "--")
  ∧ JsValue.str "undefinedms" ≠ JsValue.str "--" := by
  refine ⟨rfl, rfl, ?_⟩
  intro h
  injection h with h2
  exact absurd h2 (by decide)

/-- **C7, amended.** `getStatus` derives each type's summary from the
single most recent persisted Result (greatest file name, which matches
timestamp order for the equal-length epoch names): with performance scores
[50, 70, 60] at t1 < t2 < t3 it reports 60, never an average or maximum.
The query never fails on missing fields: missing scores surface as `'--'`
and a missing vulnerability list as `0`, but a missing `loadTime` surfaces
as `"undefinedms"` instead of the placeholder. -/
theorem status_latest_and_placeholders :
    (getStatus dirA).lookup "perf-score" = some (.num 60)
  ∧ (getStatus dirA).lookup "perf-load" = some (.str "333ms")
  ∧ getStatus dirB =
      [ ("perf-score", .str "--"), ("perf-load", .str "undefinedms")
      , ("security-score", .str "--"), ("security-vulns", .num 0)
      , ("ai-content", .str "--"), ("ai-seo", .str "Poor") ] :=
  ⟨rfl, rfl, rfl⟩

/-! ## `generateReport` (orchestrator.js lines 673-716) -/

/-- One entry of a per-type report group:
`{ file: reportFile, timestamp: data.timestamp || Date.now(), data }`. -/
structure RepEntry where
  file : String
  timestamp : JsValue
  data : JsValue
deriving Repr

/-- The grouping step of `generateReport`'s first loop for one directory
entry: group key is the file-name prefix before `_`; a new key is appended
in insertion order, an existing key has the entry pushed onto its group. -/
def groupStep (now : Int) (acc : List (String × List RepEntry))
    (f : String × JsValue) : List (String × List RepEntry) :=
  let t := typePrefix f.1
  let entry : RepEntry := ⟨f.1, jsOr (jsGet f.2 "timestamp") (.num now), f.2⟩
  match acc.lookup t with
  | none => acc ++ [(t, [entry])]
  | some _ => acc.map (fun p => if p.1 = t then (p.1, p.2 ++ [entry]) else p)

def groupReports (now : Int) (dir : List (String × JsValue)) :
    List (String × List RepEntry) :=
  dir.foldl (groupStep now) []

/-- The sort comparator `(a, b) => b.timestamp - a.timestamp` (descending
by timestamp); a non-numeric comparison (JavaScript `NaN`) is treated as
`+0` per the ECMAScript sort algorithm. -/
def entryCmp (a b : RepEntry) : Int :=
  match a.timestamp, b.timestamp with
  | .num x, .num y => y - x
  | _, _ => 0

def entryLe (a b : RepEntry) : Prop := entryCmp a b ≤ 0

instance : DecidableRel entryLe := fun a b => Int.decLe (entryCmp a b) 0

/-- `Math.max(...)` over the collected timestamps: `-Infinity` on an empty
spread, `NaN` as soon as a non-number appears. -/
def jsMathMax (vs : List JsValue) : JsValue :=
  vs.foldl (fun acc v =>
    match acc, v with
    | .neginf, .num n => .num n
    | .num m, .num n => .num (max m n)
    | _, _ => .nan) .neginf

/-- The `comprehensiveReport` object literal (lines 701-709). -/
structure CompReport where
  generated : Int
  totalReports : Int
  reportTypes : List String
  latestActivity : JsValue
  reports : List (String × List RepEntry)
deriving Repr

/-- `generateReport` as a pure function of the current time and the parsed
directory contents: group by type prefix, stable-sort every group by
timestamp descending, and assemble the comprehensive report. -/
def generateReport (now : Int) (dir : List (String × JsValue)) : CompReport :=
  let sorted := (groupReports now dir).map
    (fun p => (p.1, List.insertionSort entryLe p.2))
  { generated := now
  , totalReports := dir.length
  , reportTypes := sorted.map (fun p => p.1)
  , latestActivity := jsMathMax (((sorted.map (fun p => p.2)).flatten).map
      (fun e => e.timestamp))
  , reports := sorted }

def repEntryToJson (e : RepEntry) : JsValue :=
  .obj [("file", .str e.file), ("timestamp", e.timestamp), ("data", e.data)]

/-- `JSON.stringify` of a non-finite number yields `null`. -/
def jsonNum (v : JsValue) : JsValue :=
  match v with
  | .nan => .null
  | .neginf => .null
  | v => v

/-- The JSON document `JSON.stringify(comprehensiveReport, null, 2)`
writes, as the value `JSON.parse` recovers from it. -/
def compReportToJson (r : CompReport) : JsValue :=
  .obj [ ("generated", .num r.generated)
       , ("summary", .obj [ ("totalReports", .num r.totalReports)
                          , ("reportTypes", .arr (r.reportTypes.map (fun t => .str t)))
                          , ("latestActivity", jsonNum r.latestActivity) ])
       , ("reports", .obj (r.reports.map
            (fun p => (p.1, .arr (p.2.map repEntryToJson))))) ]

/-- `comprehensive_<Date.now()>.json`. -/
def compFileName (now : Int) : String :=
  "comprehensive_" ++ toString now ++ ".json"

/-- `generateReport` including its side effect: the comprehensive report is
written **into the same reports directory it reads**, so a later call sees
it as one more stored report. -/
def generateReportAndWrite (now : Int) (dir : List (String × JsValue)) :
    CompReport × List (String × JsValue) :=
  let rep := generateReport now dir
  (rep, dir ++ [(compFileName now, compReportToJson rep)])

/-- A reports directory holding one performance Result (payload with a
truthy `timestamp` field). -/
def dirC : List (String × JsValue) :=
  [ ("performance_1700000000001.json",
      .obj [("timestamp", .num 1700000000001), ("score", .num 50)]) ]

/-! ## C8: report compilation is not idempotent -/

/-- **C8, counterexample.** Two `generateReport` calls with no new Results
recorded in between do **not** produce identical `reports` content: the
first call stores its own output as `comprehensive_<t>.json` in the
directory it reads, so the second call's `reports` additionally contains a
`comprehensive` group. -/
theorem report_idempotence_counterexample :
    ((generateReport 1700000000500 dirC).reports).map (fun p => p.1) = ["performance"]
  ∧ ((generateReport 1700000000900
        (generateReportAndWrite 1700000000500 dirC).2).reports).map (fun p => p.1)
      = ["performance", "comprehensive"]
  ∧ (generateReport 1700000000900
        (generateReportAndWrite 1700000000500 dirC).2).reports
      ≠ (generateReport 1700000000500 dirC).reports := by
  refine ⟨rfl, rfl, ?_⟩
  intro h
  have hkeys := congrArg (fun l => l.map (fun p : String × List RepEntry => p.1)) h
  simp only at hkeys
  exact absurd hkeys (by decide)

theorem lookup_pair_cons (t k : String) (v : List RepEntry)
    (rest : List (String × List RepEntry)) :
    List.lookup t ((k, v) :: rest) = if t = k then some v else List.lookup t rest := by
  show (match t == k with
        | true => some v
        | false => List.lookup t rest)
      = if t = k then some v else List.lookup t rest
  by_cases h : t = k
  · rw [if_pos h, beq_iff_eq.mpr h]
  · rw [if_neg h, beq_eq_false_iff_ne.mpr h]

theorem lookup_append_single {l : List (String × List RepEntry)} {k t : String}
    {v : List RepEntry} (ht : t ≠ k) :
    ((l ++ [(k, v)]).lookup t) = l.lookup t := by
  induction l with
  | nil =>
    rw [List.nil_append, lookup_pair_cons, if_neg ht]
  | cons p rest ih =>
    obtain ⟨pk, pv⟩ := p
    rw [List.cons_append, lookup_pair_cons, lookup_pair_cons]
    split
    · rfl
    · exact ih

theorem lookup_map_push {l : List (String × List RepEntry)} {k t : String}
    (e : RepEntry) (ht : t ≠ k) :
    ((l.map (fun p => if p.1 = k then (p.1, p.2 ++ [e]) else p)).lookup t) = l.lookup t := by
  induction l with
  | nil => rfl
  | cons p rest ih =>
    obtain ⟨pk, pv⟩ := p
    by_cases hp : pk = k
    · subst hp
      rw [List.map_cons]
      have hhead : (if (pk, pv).1 = pk then ((pk, pv).1, (pk, pv).2 ++ [e]) else (pk, pv))
          = (pk, pv ++ [e]) := by simp
      rw [hhead, lookup_pair_cons, lookup_pair_cons, if_neg ht, if_neg ht]
      exact ih
    · rw [List.map_cons]
      have hhead : (if (pk, pv).1 = k then ((pk, pv).1, (pk, pv).2 ++ [e]) else (pk, pv))
          = (pk, pv) := by simp [hp]
      rw [hhead, lookup_pair_cons, lookup_pair_cons]
      split
      · rfl
      · exact ih

theorem lookup_groupStep_ne {now : Int} {acc : List (String × List RepEntry)}
    {f : String × JsValue} {t : String} (ht : t ≠ typePrefix f.1) :
    ((groupStep now acc f).lookup t) = acc.lookup t := by
  simp only [groupStep]
  cases h : acc.lookup (typePrefix f.1) with
  | none => exact lookup_append_single ht
  | some l =>
    show (acc.map (fun p => if p.1 = typePrefix f.1
        then (p.1, p.2 ++ [⟨f.1, jsOr (jsGet f.2 "timestamp") (.num now), f.2⟩]) else p)).lookup t
      = acc.lookup t
    exact lookup_map_push _ ht

theorem lookup_groupReports_append {now : Int} {dir : List (String × JsValue)}
    {name : String} {d : JsValue} {t : String} (ht : t ≠ typePrefix name) :
    ((groupReports now (dir ++ [(name, d)])).lookup t)
      = (groupReports now dir).lookup t := by
  unfold groupReports
  rw [List.foldl_append]
  simp only [List.foldl_cons, List.foldl_nil]
  exact lookup_groupStep_ne ht

theorem groupStep_now_indep {n1 n2 : Int} {acc : List (String × List RepEntry)}
    {f : String × JsValue} (h : truthy (jsGet f.2 "timestamp") = true) :
    groupStep n1 acc f = groupStep n2 acc f := by
  unfold groupStep
  have hor : ∀ m : Int, jsOr (jsGet f.2 "timestamp") (.num m) = jsGet f.2 "timestamp" := by
    intro m; unfold jsOr; rw [h]; rfl
  rw [hor n1, hor n2]

theorem foldl_groupStep_now_indep {n1 n2 : Int} :
    ∀ (dir : List (String × JsValue)) (acc : List (String × List RepEntry)),
    (∀ f ∈ dir, truthy (jsGet f.2 "timestamp") = true) →
    dir.foldl (groupStep n1) acc = dir.foldl (groupStep n2) acc := by
  intro dir
  induction dir with
  | nil => intro acc _; rfl
  | cons f rest ih =>
    intro acc h
    simp only [List.foldl_cons]
    rw [groupStep_now_indep (h f (List.mem_cons_self f rest))]
    exact ih _ (fun g hg => h g (List.mem_cons_of_mem f hg))

theorem lookup_map_pair (l : List (String × List RepEntry))
    (g : List RepEntry → List RepEntry) (t : String) :
    ((l.map (fun p => (p.1, g p.2))).lookup t) = (l.lookup t).map g := by
  induction l with
  | nil => rfl
  | cons p rest ih =>
    simp only [List.map_cons, List.lookup]
    split
    · rfl
    · exact ih

theorem typePrefix_compFileName (now : Int) :
    typePrefix (compFileName now) = "comprehensive" := rfl

/-- **C8, amended.** `generateReport` is idempotent on the pre-existing
task-type groups, but not on the whole `reports` content: provided every
stored payload carries a truthy `timestamp` field (otherwise the
`data.timestamp || Date.now()` fallback stamps the two calls differently),
a second call with no new Results recorded in between reproduces the first
call's `reports` group for every type other than `comprehensive` — the
difference being exactly that the first call wrote its own output into the
reports directory, which the second call picks up as a `comprehensive`
group. -/
theorem report_idempotence_amended (dir : List (String × JsValue)) (now1 now2 : Int)
    (hts : ∀ f ∈ dir, truthy (jsGet f.2 "timestamp") = true)
    (t : String) (ht : t ≠ "comprehensive") :
    ((generateReport now2 (generateReportAndWrite now1 dir).2).reports).lookup t
      = ((generateReport now1 dir).reports).lookup t := by
  show ((groupReports now2 (dir ++ [(compFileName now1, _)])).map
          (fun p => (p.1, List.insertionSort entryLe p.2))).lookup t
    = ((groupReports now1 dir).map
          (fun p => (p.1, List.insertionSort entryLe p.2))).lookup t
  rw [lookup_map_pair, lookup_map_pair]
  rw [lookup_groupReports_append (by rw [typePrefix_compFileName]; exact ht)]
  unfold groupReports
  rw [foldl_groupStep_now_indep dir [] hts]

/-- Witness for C8 (amended): on the one-performance-Result store, the
second call's `performance` group equals the first call's. -/
theorem report_idempotence_amended_witness :
    (∀ f ∈ dirC, truthy (jsGet f.2 "timestamp") = true) ∧
    ((generateReport 1700000000900
        (generateReportAndWrite 1700000000500 dirC).2).reports).lookup "performance"
      = ((generateReport 1700000000500 dirC).reports).lookup "performance" :=
  ⟨by decide,
   report_idempotence_amended dirC 1700000000500 1700000000900 (by decide)
     "performance" (by decide)⟩

/-! ## `startScheduler` (orchestrator.js lines 561-573) -/

/-- A Schedule Entry of the `scheduling` configuration table:
`enabled` flag, `interval` in seconds, and (in
`automation_config/config.json`) a per-entry `priority`; the hardcoded
default table created by `loadConfig` has no `priority` field, hence the
`Option`. -/
structure ScheduleEntry where
  enabled : Bool
  interval : Int
  priority : Option Int
deriving Repr, DecidableEq

/-- One repeating timer installed by `startScheduler`: its task type, its
`setInterval` period in milliseconds, and the options bag the timer
callback passes to `queueTask`. -/
structure ScheduledTimer where
  taskType : String
  periodMs : Int
  options : TaskOptions
deriving Repr, DecidableEq

/-- `startScheduler`: for every `[taskType, schedule]` of
`config.scheduling` with `schedule.enabled`, install
`setInterval(() => this.queueTask(taskType, { priority: 3 }),
schedule.interval * 1000)` — the options bag is the literal
`{ priority: 3 }`, independent of the entry. -/
def startScheduler (scheduling : List (String × ScheduleEntry)) : List ScheduledTimer :=
  (scheduling.filter (fun p => p.2.enabled)).map
    (fun p => { taskType := p.1
              , periodMs := p.2.interval * 1000
              , options := { priority := some 3 } })

/-- The `scheduling` table of `automation_config/config.json`
(lines 47-73). -/
def configScheduling : List (String × ScheduleEntry) :=
  [ ("healthCheck", ⟨true, 300, some 1⟩)
  , ("securityScan", ⟨true, 3600, some 2⟩)
  , ("performanceTest", ⟨true, 1800, some 3⟩)
  , ("contentAnalysis", ⟨true, 7200, some 4⟩)
  , ("visualRegression", ⟨true, 86400, some 5⟩) ]

/-! ## C9: scheduler priorities -/

/-- **C9, counterexample.** The scheduler does **not** enqueue with each
entry's own configured priority: the `healthCheck` entry of
`automation_config/config.json` carries `priority: 1`, but the installed
timer enqueues with the hardcoded `{ priority: 3 }`. -/
theorem scheduler_priority_counterexample :
    ((startScheduler configScheduling).find?
        (fun tmr => tmr.taskType == "healthCheck")).map (fun tmr => tmr.options.priority)
      = some (some 3)
  ∧ (configScheduling.lookup "healthCheck").map (fun e => e.priority) = some (some 1)
  ∧ some (some (3 : Int)) ≠ some (some (1 : Int)) := by
  refine ⟨rfl, rfl, by decide⟩

/-- **C9, amended.** When the scheduler starts, every Schedule Entry with
`enabled = true` gets a repeating enqueue of its type every
`intervalSeconds` (period `interval * 1000` ms) — but always with the
hardcoded priority 3, not the entry's own configured priority — and every
installed timer stems from an enabled entry, so no `enabled = false` entry
is ever auto-enqueued. -/
theorem scheduler_contract :
    (∀ (sched : List (String × ScheduleEntry)) (tmr : ScheduledTimer),
      tmr ∈ startScheduler sched →
        tmr.options = { priority := some 3 } ∧
        ∃ e : ScheduleEntry, (tmr.taskType, e) ∈ sched ∧ e.enabled = true ∧
          tmr.periodMs = e.interval * 1000)
  ∧ (∀ (sched : List (String × ScheduleEntry)) (ty : String) (e : ScheduleEntry),
      (ty, e) ∈ sched → e.enabled = true →
        ({ taskType := ty, periodMs := e.interval * 1000
         , options := { priority := some 3 } } : ScheduledTimer) ∈ startScheduler sched) := by
  constructor
  · intro sched tmr htmr
    unfold startScheduler at htmr
    rcases List.mem_map.1 htmr with ⟨p, hp, heq⟩
    rcases List.mem_filter.1 hp with ⟨hmem, hen⟩
    refine heq ▸ ⟨rfl, p.2, ?_, by simpa using hen, rfl⟩
    simpa using hmem
  · intro sched ty e hmem hen
    unfold startScheduler
    refine List.mem_map.2 ⟨(ty, e), List.mem_filter.2 ⟨hmem, by simpa using hen⟩, rfl⟩

/-- Witness for C9 (amended): the enabled `healthCheck` entry yields a
300000 ms timer with the hardcoded priority-3 options. -/
theorem scheduler_contract_witness :
    ({ taskType := "healthCheck", periodMs := 300000
     , options := { priority := some 3 } } : ScheduledTimer)
      ∈ startScheduler configScheduling :=
  scheduler_contract.2 configScheduling "healthCheck" ⟨true, 300, some 1⟩
    (by decide) rfl

end Orch
